import Mathlib

/-!
Shallow embedding of the measurement-recording and controller modules of
`openag-client-core` (`sensor_persistence.py` and `controllers.py`), with
theorems settling the specification claims about them.

Conventions of the embedding:
* Python floats are modelled as exact rationals (`ℚ`).
* Python exceptions are modelled by `Except PyErr`: a function that can raise
  returns `.error e` for the exception `e`; a raised exception propagates out
  of the handler, leaving the object state as it was (no field of `self` is
  assigned before any of the raising statements modelled here).
* Python dictionaries keyed by strings are modelled as association lists with
  first-match lookup and in-place replacement on insert.
* Reading an attribute that no method ever assigned raises `AttributeError`;
  such an attribute slot is modelled as an `Option` field that stays `none`.
* Evaluating a name bound in no enclosing scope raises `NameError`; where a
  claim turns on this, the set of names actually bound in the enclosing
  function is made explicit and the lookup is modelled by `loadName`.
-/

/-- Python exceptions that the embedded code can raise. -/
inductive PyErr where
  | attributeError
  | zeroDivisionError
  | typeError
  | nameError
  | runtimeError
  deriving DecidableEq, Repr

/-- Runtime value of a reading once `on_data` has interpreted the message
payload: either a scalar number or (for `uint8[]` payloads) a list of small
integers produced by `ord`. -/
inductive Value where
  | scalar (x : ℚ)
  | arr (xs : List ℕ)
  deriving DecidableEq, Repr

/-- Inbound bus message, as seen through `item.data` and
`item._slot_types[item.__slots__.index('data')]` in `on_data`: a `Float64`
message carries a scalar and its slot type is `"float64"`; a
`UInt8MultiArray` message carries its bytes as a string and its slot type is
`"uint8[]"`. -/
inductive ItemData where
  | float64 (x : ℚ)
  | uint8_array (s : List Char)
  deriving DecidableEq, Repr

/-- First-match lookup in an association list (Python `dict.get`). -/
def assoc_get {α : Type} (l : List (String × α)) (k : String) : Option α :=
  match l with
  | [] => none
  | (k2, v) :: rest => if k2 = k then some v else assoc_get rest k

/-- In-place replacement insert in an association list (Python `d[k] = v`). -/
def assoc_set {α : Type} (l : List (String × α)) (k : String) (v : α) :
    List (String × α) :=
  match l with
  | [] => [(k, v)]
  | (k2, v2) :: rest =>
      if k2 = k then (k, v) :: rest else (k2, v2) :: assoc_set rest k v

/-- `should_update_point(last_value, value, delta_time, min_update_interval,
max_update_interval)` from `sensor_persistence.py` (lines 31-41), lifted to
runtime `Value`s as `on_data` calls it.  The Python body is

    if delta_time < min_update_interval: return False
    if delta_time < max_update_interval:
        delta_val = value - last_value
        if abs(delta_val / last_value) <= 0.01: return False
    return True

In the middle band, `value - last_value` raises `TypeError` unless both
operands are numbers, and `delta_val / last_value` raises
`ZeroDivisionError` when `last_value` is zero. -/
def should_update_point (last_value value : Value)
    (delta_time min_update_interval max_update_interval : ℚ) :
    Except PyErr Bool :=
  if delta_time < min_update_interval then .ok false
  else if delta_time < max_update_interval then
    match last_value, value with
    | .scalar lv, .scalar v =>
        if lv = 0 then .error .zeroDivisionError
        else if |(v - lv) / lv| ≤ 1 / 100 then .ok false
        else .ok true
    | _, _ => .error .typeError
  else .ok true

/-- `read_index_key(environment, variable, is_desired)` from
`sensor_persistence.py` (lines 43-47). -/
def read_index_key (environment «variable» : String) (is_desired : Bool) :
    String :=
  let point_type := if is_desired then "desired" else "measured"
  environment ++ "_" ++ point_type ++ "_" ++ «variable»

/-- The persisted document: `EnvironmentalDataPoint` as `on_data` constructs
it (lines 84-90); its store id is the key under which it is written, not a
field of the document. -/
structure EnvironmentalDataPoint where
  environment : String
  «variable» : String
  is_desired : Bool
  value : Value
  timestamp : ℚ
  deriving DecidableEq, Repr

/-- State of one `TopicPersistence` instance.  The fields are exactly the
attributes `__init__` (lines 50-61) assigns — `db` (the document store
connection, modelled by the store contents), `environment`, `variable`,
`is_desired`, `last_points` (the throttle index), and the two intervals —
plus `last_time`, the attribute slot that `on_data` reads (line 76) but that
no method of the class ever assigns; its value is therefore the absent
marker `none`.  The `topic`/`topic_type` constructor arguments only
parametrise the external bus subscription and carry no state. -/
structure TopicPersistence where
  db : List (String × EnvironmentalDataPoint)
  environment : String
  «variable» : String
  is_desired : Bool
  last_points : List (String × EnvironmentalDataPoint)
  max_update_interval : ℚ
  min_update_interval : ℚ
  last_time : Option ℚ
  deriving DecidableEq, Repr

/-- `TopicPersistence.__init__` (lines 50-61): records the constructor
arguments, starts with an empty throttle index, and assigns nothing to the
`last_time` attribute slot. -/
def TopicPersistence.init (db : List (String × EnvironmentalDataPoint))
    (environment «variable» : String) (is_desired : Bool)
    (max_update_interval min_update_interval : ℚ) : TopicPersistence :=
  { db, environment, «variable», is_desired, last_points := [],
    max_update_interval, min_update_interval, last_time := none }

/-- `TopicPersistence.gen_doc_id` (lines 97-98): `"{curr_time}-{nonce}"`
where the nonce is drawn from `random.randint(0, sys.maxsize)`; the draw is
passed in as an explicit argument. -/
def TopicPersistence.gen_doc_id (curr_time : ℚ) (nonce : ℕ) : String :=
  toString curr_time ++ "-" ++ toString nonce

/-- `TopicPersistence.on_data` (lines 63-95), with the wall clock
(`time.time()`) and the random nonce passed in explicitly.  The body in
order: interpret the payload (normalising `uint8[]` payloads through `ord`),
compute the index key, look up the previous point, then evaluate
`delta_time = curr_time - self.last_time` — which raises `AttributeError`
when the `last_time` slot was never assigned — then throttle via
`should_update_point` (guarded by the truthiness of `last_point`), and on
acceptance write the new `EnvironmentalDataPoint` to the store and replace
the index entry. -/
def TopicPersistence.on_data (self : TopicPersistence) (item : ItemData)
    (curr_time : ℚ) (nonce : ℕ) : Except PyErr TopicPersistence :=
  let value : Value :=
    match item with
    | .float64 x => .scalar x
    | .uint8_array s => .arr (s.map Char.toNat)
  let key := read_index_key self.environment self.«variable» self.is_desired
  let last_point := assoc_get self.last_points key
  match self.last_time with
  | none => .error .attributeError
  | some last_time =>
    let delta_time := curr_time - last_time
    let decision : Except PyErr Bool :=
      match last_point with
      | some lp =>
          should_update_point lp.value value delta_time
            self.min_update_interval self.max_update_interval
      | none => .ok true
    match decision with
    | .error e => .error e
    | .ok false => .ok self
    | .ok true =>
      let point : EnvironmentalDataPoint :=
        { environment := self.environment, «variable» := self.«variable»,
          is_desired := self.is_desired, value := value,
          timestamp := curr_time }
      let point_id := TopicPersistence.gen_doc_id curr_time nonce
      .ok { self with db := assoc_set self.db point_id point,
                      last_points := assoc_set self.last_points key point }

/-- Delivery of one bus message to the `on_data` handler.  An exception
raised inside the handler propagates to the bus layer and is logged; the
instance's state is unchanged, because `on_data` assigns no attribute before
any of its raising statements. -/
def TopicPersistence.handle (self : TopicPersistence) (item : ItemData)
    (curr_time : ℚ) (nonce : ℕ) : TopicPersistence :=
  match self.on_data item curr_time nonce with
  | .ok s => s
  | .error _ => self

/-- Delivery of a sequence of bus messages, each an `(item, time, nonce)`
triple, in arrival order. -/
def TopicPersistence.run (self : TopicPersistence) :
    List (ItemData × ℚ × ℕ) → TopicPersistence
  | [] => self
  | e :: rest => (self.handle e.1 e.2.1 e.2.2).run rest

/-- A `TopicPersistence` whose `last_time` slot is absent faults with
`AttributeError` on every delivered reading, at the
`delta_time = curr_time - self.last_time` statement. -/
theorem on_data_of_last_time_none (self : TopicPersistence)
    (h : self.last_time = none) (item : ItemData) (t : ℚ) (n : ℕ) :
    self.on_data item t n = .error .attributeError := by
  simp [TopicPersistence.on_data, h]

/-- Delivery to an instance with an absent `last_time` slot leaves the
instance unchanged: the exception propagates before any field assignment. -/
theorem handle_of_last_time_none (self : TopicPersistence)
    (h : self.last_time = none) (item : ItemData) (t : ℚ) (n : ℕ) :
    self.handle item t n = self := by
  unfold TopicPersistence.handle
  rw [on_data_of_last_time_none self h item t n]

/-- A whole run of deliveries to an instance with an absent `last_time` slot
leaves the instance unchanged. -/
theorem run_of_last_time_none (self : TopicPersistence)
    (h : self.last_time = none) (events : List (ItemData × ℚ × ℕ)) :
    self.run events = self := by
  induction events with
  | nil => rfl
  | cons e rest ih =>
    rw [TopicPersistence.run, handle_of_last_time_none self h e.1 e.2.1 e.2.2,
      ih]

/-- C1 (amended): for a nonzero prior value, `should_update_point` decides
per the spec's chain of rules — reject below `min_update_interval`
regardless of value, accept in the middle band exactly when the relative
change `|value - last_value| / |last_value|` exceeds 1%, and accept
unconditionally once `max_update_interval` is reached.  The nonzero
hypothesis is forced: with a zero prior value the middle band raises
`ZeroDivisionError` instead of deciding. -/
theorem should_update_point_decides_of_nonzero_baseline
    (lv v dt mn mx : ℚ) (h : lv ≠ 0) :
    (dt < mn → should_update_point (.scalar lv) (.scalar v) dt mn mx = .ok false) ∧
    (mn ≤ dt → dt < mx →
      (should_update_point (.scalar lv) (.scalar v) dt mn mx = .ok true ↔
        |v - lv| / |lv| > 1 / 100)) ∧
    (mn ≤ dt → mx ≤ dt →
      should_update_point (.scalar lv) (.scalar v) dt mn mx = .ok true) := by
  refine ⟨fun h1 => ?_, fun h1 h2 => ?_, fun h1 h2 => ?_⟩
  · simp [should_update_point, h1]
  · rw [should_update_point]
    rw [if_neg (not_lt.2 h1), if_pos h2]
    simp only [if_neg h]
    rw [abs_div] at *
    constructor
    · intro he
      by_contra hc
      rw [not_lt] at hc
      rw [if_pos hc] at he
      exact absurd he (by simp)
    · intro hgt
      rw [if_neg (not_le.2 hgt)]
  · rw [should_update_point, if_neg (not_lt.2 h1), if_neg (not_lt.2 h2)]

/-- C1 witness: prior value 20, reading 21 at `delta_time = 10` inside the
band `[5, 600)` is accepted, its relative change being 5% > 1%. -/
theorem should_update_point_decides_of_nonzero_baseline_witness :
    (20 : ℚ) ≠ 0 ∧
      should_update_point (.scalar 20) (.scalar 21) 10 5 600 = .ok true :=
  ⟨by norm_num,
    ((should_update_point_decides_of_nonzero_baseline 20 21 10 5 600
          (by norm_num)).2.1 (by norm_num) (by norm_num)).mpr
      (by
        rw [abs_of_pos (by norm_num : (0 : ℚ) < 21 - 20),
          abs_of_pos (by norm_num : (0 : ℚ) < 20)]
        norm_num)⟩

/-- C1 counterexample: with prior value 0, reading 2 at `delta_time = 7` in
the band `[5, 600)`, the relative change `|2 - 0| / |0|` (division by zero
evaluating to 0 in `ℚ`) does not exceed 1%, so the claim demands the
decision reject (`.ok false`); the code instead raises `ZeroDivisionError`
and returns no decision at all. -/
theorem should_update_point_zero_baseline_counterexample :
    should_update_point (.scalar 0) (.scalar 2) 7 5 600 ≠ .ok false ∧
    should_update_point (.scalar 0) (.scalar 2) 7 5 600 =
      .error .zeroDivisionError ∧
    (5 : ℚ) ≤ 7 ∧ (7 : ℚ) < 600 ∧
    ¬ (|(2 : ℚ) - 0| / |(0 : ℚ)| > 1 / 100) := by
  have he : should_update_point (.scalar 0) (.scalar 2) 7 5 600 =
      .error .zeroDivisionError := rfl
  refine ⟨?_, he, by norm_num, by norm_num, by norm_num⟩
  rw [he]
  intro hc
  cases hc

/-- C5: whenever the prior accepted value is exactly 0 and `delta_time`
lies in the band `[min_update_interval, max_update_interval)`, the 1%
relative-change comparison divides by the zero baseline and faults with
`ZeroDivisionError`, whatever the incoming value. -/
theorem should_update_point_zero_baseline_faults (v dt mn mx : ℚ)
    (h1 : mn ≤ dt) (h2 : dt < mx) :
    should_update_point (.scalar 0) (.scalar v) dt mn mx =
      .error .zeroDivisionError := by
  rw [should_update_point, if_neg (not_lt.2 h1), if_pos h2]
  simp

/-- C5 witness: prior value 0, reading 1 at `delta_time = 5` with intervals
`[5, 600)` reaches the division and faults. -/
theorem should_update_point_zero_baseline_faults_witness :
    (5 : ℚ) ≤ 5 ∧ (5 : ℚ) < 600 ∧
      should_update_point (.scalar 0) (.scalar 1) 5 5 600 =
        .error .zeroDivisionError :=
  ⟨le_refl 5, by norm_num,
    should_update_point_zero_baseline_faults 1 5 5 600 (le_refl 5)
      (by norm_num)⟩

/-- C4: no operation of `TopicPersistence` ever assigns the `last_time`
attribute — after construction and any sequence of delivered readings the
slot is still absent — and therefore the next `on_data` call, whatever the
reading, faults with `AttributeError` at the `delta_time` computation,
before the accept/reject decision and before any store write. -/
theorem on_data_always_faults_on_unassigned_last_time
    (db : List (String × EnvironmentalDataPoint)) (env v : String)
    (isd : Bool) (mx mn : ℚ) (events : List (ItemData × ℚ × ℕ))
    (item : ItemData) (t : ℚ) (n : ℕ) :
    ((TopicPersistence.init db env v isd mx mn).run events).last_time =
      none ∧
    ((TopicPersistence.init db env v isd mx mn).run events).on_data item t n =
      .error .attributeError := by
  have h0 : (TopicPersistence.init db env v isd mx mn).last_time = none := rfl
  rw [run_of_last_time_none _ h0]
  exact ⟨h0, on_data_of_last_time_none _ h0 item t n⟩

/-- C2 (refuting evidence): from construction through any sequence of
deliveries, handling one more reading leaves the document store exactly as
constructed and the throttle index empty, and the handler in fact faults
with `AttributeError`; in particular a reading the spec's procedure accepts
is never written and never replaces an index entry. -/
theorem handle_never_writes_nor_mutates_index
    (db : List (String × EnvironmentalDataPoint)) (env v : String)
    (isd : Bool) (mx mn : ℚ) (events : List (ItemData × ℚ × ℕ))
    (item : ItemData) (t : ℚ) (n : ℕ) :
    (((TopicPersistence.init db env v isd mx mn).run events).handle
        item t n).db = db ∧
    (((TopicPersistence.init db env v isd mx mn).run events).handle
        item t n).last_points = [] ∧
    ((TopicPersistence.init db env v isd mx mn).run events).on_data item t n =
      .error .attributeError := by
  have h0 : (TopicPersistence.init db env v isd mx mn).last_time = none := rfl
  rw [run_of_last_time_none _ h0, handle_of_last_time_none _ h0 item t n]
  exact ⟨rfl, rfl, on_data_of_last_time_none _ h0 item t n⟩

/-- C3 (refuting evidence): the very first reading for a key — the instance
is fresh, so its throttle index has no entry for the key — is not accepted
and not persisted: `on_data` raises `AttributeError` and the store receives
no document, whatever the value and the configured intervals. -/
theorem first_reading_faults_not_persisted
    (db : List (String × EnvironmentalDataPoint)) (env v : String)
    (isd : Bool) (mx mn : ℚ) (item : ItemData) (t : ℚ) (n : ℕ) :
    (TopicPersistence.init db env v isd mx mn).last_points = [] ∧
    (TopicPersistence.init db env v isd mx mn).on_data item t n =
      .error .attributeError :=
  ⟨rfl, on_data_of_last_time_none _ rfl item t n⟩

/-- C8 (refuting evidence): a scalar reading is never compared against the
prior value nor stored as a float, and a byte-array reading, though
normalised to small integers by `ord`, is likewise never compared nor
stored: both deliveries fault with `AttributeError` before
`should_update_point` and before the store write. -/
theorem payloads_never_compared_nor_stored :
    (TopicPersistence.init [] "environment_1" "light_illuminance" false
        600 5).on_data (.float64 20) 0 7 = .error .attributeError ∧
    (TopicPersistence.init [] "environment_1" "light_illuminance" false
        600 5).on_data (.uint8_array ['a', 'b']) 0 7 =
      .error .attributeError :=
  ⟨rfl, rfl⟩

/-- C9 (refuting evidence): the throttle index is never populated — after
any run of deliveries, including the first observation of the key, which
the spec's decision procedure accepts, `last_points` still holds no
`ThrottleIndexEntry` at all. -/
theorem throttle_index_never_populated
    (db : List (String × EnvironmentalDataPoint)) (env v : String)
    (isd : Bool) (mx mn : ℚ) (events : List (ItemData × ℚ × ℕ)) :
    ((TopicPersistence.init db env v isd mx mn).run events).last_points =
      [] := by
  rw [run_of_last_time_none _ rfl]
  rfl

/-- Names bound at module level in `controllers.py`: the imported names and
the module's own definitions.  Notably, no module-level name `variable`
exists. -/
def controllers_module_globals : List String :=
  ["rospy", "sub", "getargspec", "Float64", "Controller",
   "ClosedLoopController", "OpenLoopController", "to_snake_case"]

/-- Evaluation of a bare name inside a function of `controllers.py`:
resolved against the enclosing function's bound names, then the module
globals; an unbound name raises `NameError`. -/
def loadName (enclosing : List String) (n : String) : Except PyErr Unit :=
  if n ∈ enclosing ∨ n ∈ controllers_module_globals then .ok ()
  else .error .nameError

/-- Everything `Controller.start` (lines 66-106) returns on success: the
constructed controller instance and the three channel names. -/
structure StartResult (C : Type) where
  controller : C
  cmd_topic : String
  state_topic_name : String
  desired_sub_name : String

/-- `Controller.start` (lines 66-106).  External collaborators are passed in
explicitly: `mk` stands for the class constructor `cls(**param_values)`
applied to the resolved private parameters `ps`, `namespace_` for
`rospy.get_namespace()`, and `var?` for
`rospy.get_param("~variable", None)`.  The body first checks the namespace
and raises `RuntimeError` when it is the global root `"/"`, before the
controller is constructed and before any channel name is derived.
Otherwise it constructs the controller and derives the channel names; when
`var?` is absent, the return statement reads `desired_sub_name`, a
name only ever assigned inside the `variable is not None` branch (the
default assignment at line 97 binds `desired_topic_name` instead), raising
`NameError`. -/
def Controller.start {C P : Type} (mk : P → C) (ps : P) (namespace_ : String)
    (var? : Option String) : Except PyErr (StartResult C) :=
  if namespace_ = "/" then .error .runtimeError
  else
    let controller := mk ps
    match var? with
    | some v =>
        .ok ⟨controller, v ++ "/commanded", v ++ "/measured",
          v ++ "/desired"⟩
    | none => .error .nameError

/-- A publish on the bus: channel name and published value. -/
structure Publish where
  topic : String
  value : ℚ
  deriving DecidableEq, Repr

/-- Names bound in `OpenLoopController.start` (lines 142-162) by the time
its nested `set_point_callback` runs: the method's own parameter and
locals.  `variable`, referenced by both `rospy.logdebug` format calls of
the callback, is a local of the distinct function `Controller.start` and is
not among them. -/
def open_loop_start_locals : List String :=
  ["cls", "controller", "cmd_topic", "measured_topic", "desired_topic",
   "cmd_pub", "measured_pub", "set_point_callback", "set_point_sub"]

/-- `set_point_callback` nested in `OpenLoopController.start` (lines
148-156), for an inbound set-point `item` and a controller whose `update`
method is `update`.  The first statement evaluates
`"New {} set point: {}".format(variable, item.data)` as the argument of
`rospy.logdebug`, which requires resolving the name `variable`; only then
is `update` invoked, and a non-`None` command is published on the command
channel and echoed on the measured channel (after a second logdebug that
again resolves `variable`). -/
def OpenLoopController.set_point_callback (cmd_topic measured_topic : String)
    (update : ℚ → Option ℚ) (item : ℚ) : Except PyErr (List Publish) :=
  match loadName open_loop_start_locals "variable" with
  | .error e => .error e
  | .ok _ =>
    match update item with
    | none => .ok []
    | some cmd =>
      match loadName open_loop_start_locals "variable" with
      | .error e => .error e
      | .ok _ => .ok [⟨cmd_topic, cmd⟩, ⟨measured_topic, cmd⟩]

/-- `OpenLoopController.start` (lines 142-162) up to its first statement:
line 144 unpacks `super(cls)` — a super object, not an iterable of four
values — which raises `TypeError` before any publisher is created or any
subscription is made (were it to proceed, line 146 would read the undefined
name `state_topic` and raise `NameError`). -/
def OpenLoopController.start : Except PyErr Unit := .error .typeError

/-- Per-instance state of a closed-loop controller: the last-known
set-point (`self.set_point`, class default `None`). -/
structure ClosedLoopState where
  set_point : Option ℚ
  deriving DecidableEq, Repr

/-- Names bound in `ClosedLoopController.start` (lines 114-134) by the time
its nested callbacks run.  As in the open-loop case, `variable` is not
among them. -/
def closed_loop_start_locals : List String :=
  ["cls", "controller", "cmd_topic", "measured_topic", "desired_topic",
   "cmd_pub", "state_callback", "set_point_callback", "state_sub",
   "set_point_sub"]

/-- `state_callback` nested in `ClosedLoopController.start` (lines 118-123),
for an inbound measurement `item`: a logdebug whose format argument
resolves the name `variable`, then `cmd = controller.update(item.data)`
(the controller reads its stored set-point from `self`), and on a
non-`None` command a second such logdebug and a single publish on the
command channel. -/
def ClosedLoopController.state_callback (cmd_topic : String)
    (update : ClosedLoopState → ℚ → Option ℚ) (st : ClosedLoopState)
    (item : ℚ) : Except PyErr (List Publish) :=
  match loadName closed_loop_start_locals "variable" with
  | .error e => .error e
  | .ok _ =>
    match update st item with
    | none => .ok []
    | some cmd =>
      match loadName closed_loop_start_locals "variable" with
      | .error e => .error e
      | .ok _ => .ok [⟨cmd_topic, cmd⟩]

/-- `set_point_callback` nested in `ClosedLoopController.start` (lines
125-127), for an inbound set-point `item`: a logdebug whose format argument
resolves the name `variable`, then the assignment
`controller.set_point = item.data`; it publishes nothing and calls no
`update`. -/
def ClosedLoopController.set_point_callback (st : ClosedLoopState)
    (item : ℚ) : Except PyErr ClosedLoopState :=
  match loadName closed_loop_start_locals "variable" with
  | .error e => .error e
  | .ok _ => .ok { st with set_point := some item }

/-- `ClosedLoopController.start` (lines 114-134) up to its first statement:
line 115 unpacks `super(cls)` — a super object, not an iterable of four
values — which raises `TypeError` before any publisher is created or any
subscription is made (the method is moreover not a classmethod, and lines
129-131 would read the undefined names `state_topic_name` and
`desired_topic_name`). -/
def ClosedLoopController.start : Except PyErr Unit := .error .typeError

/-- The name `variable` is unbound in the scope of the callbacks nested in
both variant `start` methods. -/
theorem loadName_variable_unbound :
    loadName open_loop_start_locals "variable" = .error .nameError ∧
    loadName closed_loop_start_locals "variable" = .error .nameError := by
  constructor <;> rfl

/-- C6 (refuting evidence): an inbound set-point never produces the claimed
pair of publishes — whatever `update` would return, the open-loop
`set_point_callback` raises `NameError` on the unbound name `variable` in
its first statement, before `update` is invoked and before any publish;
moreover `OpenLoopController.start` itself faults while unpacking
`super(cls)`, so the callback is never even subscribed. -/
theorem open_loop_set_point_callback_faults (cmd_topic measured_topic : String)
    (update : ℚ → Option ℚ) (item : ℚ) :
    OpenLoopController.set_point_callback cmd_topic measured_topic update
        item = .error .nameError ∧
    OpenLoopController.start = .error .typeError := by
  constructor
  · unfold OpenLoopController.set_point_callback
    rw [loadName_variable_unbound.1]
  · rfl

/-- C7 (refuting evidence): an inbound measurement never invokes `update`
and never publishes — the closed-loop `state_callback` raises `NameError`
on the unbound name `variable` in its first statement — and an inbound
set-point never reaches the `self.set_point` assignment for the same
reason; `ClosedLoopController.start` itself faults while unpacking
`super(cls)`, so neither callback is ever subscribed. -/
theorem closed_loop_callbacks_fault (cmd_topic : String)
    (update : ClosedLoopState → ℚ → Option ℚ) (st : ClosedLoopState)
    (item sp : ℚ) :
    ClosedLoopController.state_callback cmd_topic update st item =
      .error .nameError ∧
    ClosedLoopController.set_point_callback st sp = .error .nameError ∧
    ClosedLoopController.start = .error .typeError := by
  refine ⟨?_, ?_, rfl⟩
  · unfold ClosedLoopController.state_callback
    rw [loadName_variable_unbound.2]
  · unfold ClosedLoopController.set_point_callback
    rw [loadName_variable_unbound.2]

/-- C10: starting any controller in the global root namespace `"/"` raises
`RuntimeError` and aborts before the controller is constructed and before
any channel name is derived — no `StartResult` (which would carry the
constructed instance and the three channels) is produced, whatever the
constructor and however the `variable` parameter resolves. -/
theorem controller_start_global_namespace_aborts {C P : Type} (mk : P → C)
    (ps : P) (var? : Option String) :
    Controller.start mk ps "/" var? = .error .runtimeError := by
  unfold Controller.start
  rw [if_pos rfl]
